import Mathlib

/-!
Shallow embedding of the AICX Stripe webhook server: the current
implementation in src/server.js and the earlier line-item based variant
(src/unnamed/part_000). Amounts arriving from Stripe are integer minor
currency units (cents); divisions by 100 and the 1.3 fallback multiplier
are modelled over the rationals.
-/

/-- JavaScript truthiness of an optional string field: absent
(null or undefined) and the empty string are falsy. -/
def strTruthy : Option String → Bool
  | none => false
  | some s => s ≠ ""

/-- JavaScript a || d over an optional string: the empty string also
falls through to the default. -/
def jsOrStr (a : Option String) (d : String) : String :=
  match a with
  | none => d
  | some s => if s = "" then d else s

/-- JavaScript x || 0 over an optional integer field: null and undefined
give 0, and 0 itself (falsy) also gives 0. -/
def jsNumOr0 : Option Int → Int
  | none => 0
  | some n => if n = 0 then 0 else n

/-- JavaScript Math.round: round half toward positive infinity. -/
def jsRound (q : ℚ) : ℤ := ⌊q + 1 / 2⌋

/-- JavaScript s || empty-string over a plain string (identity on strings,
written out to mirror the source). -/
def jsStrOrEmpty (s : String) : String := if s = "" then "" else s

/-- JavaScript q || 0 over a plain rational number. -/
def jsQOr0 (q : ℚ) : ℚ := if q = 0 then 0 else q

/-- JavaScript z || 0 over a plain integer. -/
def jsZOr0 (z : ℤ) : ℤ := if z = 0 then 0 else z

/-- A Stripe checkout session, restricted to the fields the handlers read.
customer_details_email stands for the chain
session.customer_details && session.customer_details.email, and
metadata_tier for session.metadata && session.metadata.tier; a missing
containing object and a missing leaf field both become none. -/
structure Session where
  id : String
  customer_details_email : Option String
  customer_email : Option String
  amount_total : Option Int
  metadata_tier : Option String
  customer : Option String
deriving DecidableEq, Repr

/-- The USD amount of a session: (session.amount_total || 0) / 100. -/
def sessionAmountUSD (s : Session) : ℚ := (jsNumOr0 s.amount_total : ℚ) / 100

/-- resolveTier from src/server.js lines 79-91. -/
def resolveTier (session : Session) : String :=
  if strTruthy session.metadata_tier then
    session.metadata_tier.getD ""
  else
    let amountTotal := sessionAmountUSD session
    if amountTotal ≥ 5000 then "Titan"
    else if amountTotal ≥ 2000 then "Gold"
    else if amountTotal ≥ 750 then "Silver"
    else if amountTotal ≥ 250 then "Bronze"
    else "Unknown"

/-- resolveCredits from src/server.js lines 94-111. The tier argument is
accepted and ignored, as in the source. The literal 1.3 of the source is
the rational 13/10 here. -/
def resolveCredits (tier : String) (amountTotal : ℚ) : ℤ :=
  let rounded := jsRound amountTotal
  if rounded = 250 then 325
  else if rounded = 750 then 1050
  else if rounded = 2000 then 3000
  else if rounded = 5000 then 8000
  else jsRound (amountTotal * (13 / 10))

/-- The static agreement version constant of src/server.js line 22. -/
def AGREEMENT_VERSION : String := "v1.0"

/-- The founder ledger record built by handleCheckoutCompleted in
src/server.js lines 176-187. -/
structure FounderRecord where
  timestampUtc : String
  timestampLocal : String
  email : String
  tier : String
  amountTotal : ℚ
  credits : ℤ
  sessionId : String
  customerId : String
  notes : String
  agreementVersion : String
deriving DecidableEq, Repr

/-- handleCheckoutCompleted of src/server.js lines 159-192, up to the
append call: builds the founder record. The two timestamps come from the
ambient clock and are passed in. -/
def mkFounderRecord (session : Session) (timestampUtc timestampLocal : String) :
    FounderRecord :=
  let email := jsOrStr session.customer_details_email
    (jsOrStr session.customer_email "")
  let amountTotal := sessionAmountUSD session
  let tier := resolveTier session
  let credits := resolveCredits tier amountTotal
  { timestampUtc := timestampUtc
    timestampLocal := timestampLocal
    email := email
    tier := tier
    amountTotal := amountTotal
    credits := credits
    sessionId := session.id
    customerId := jsOrStr session.customer ""
    notes := ""
    agreementVersion := AGREEMENT_VERSION }

/-- One spreadsheet cell: the append call sends strings and numbers. -/
inductive Cell where
  | str : String → Cell
  | num : ℚ → Cell
deriving DecidableEq, Repr

/-- The row serialized by appendToSheet in src/server.js lines 129-141,
columns A through K. -/
def appendToSheetRow (founder : FounderRecord) : List Cell :=
  [ Cell.str founder.timestampUtc,
    Cell.str founder.timestampLocal,
    Cell.str (jsStrOrEmpty founder.email),
    Cell.str (jsStrOrEmpty founder.tier),
    Cell.num (jsQOr0 founder.amountTotal),
    Cell.num ((jsZOr0 founder.credits : ℤ) : ℚ),
    Cell.str (jsStrOrEmpty founder.sessionId),
    Cell.str (jsStrOrEmpty founder.customerId),
    Cell.str (jsStrOrEmpty founder.notes),
    Cell.str "",
    Cell.str (jsStrOrEmpty founder.agreementVersion) ]

/-- A decoded Stripe event: declared type plus event.data.object. -/
structure StripeEvent where
  type : String
  session : Session
deriving DecidableEq, Repr

/-- Outcome of stripe.webhooks.constructEvent on the raw body, the
stripe-signature header and the signing secret: the decoded trusted event,
or the thrown error message (also thrown when the header is missing). -/
inductive VerifyOutcome where
  | ok : StripeEvent → VerifyOutcome
  | err : String → VerifyOutcome
deriving DecidableEq, Repr

/-- An HTTP response: status code and body text. -/
structure HttpResponse where
  status : Nat
  body : String
deriving DecidableEq, Repr

/-- The JSON body produced by res.json with received set to true. -/
def receivedTrueBody : String := "\x7b\"received\":true\x7d"

/-- The POST /stripe-webhook handler of src/server.js lines 199-237.
Returns the HTTP response together with the list of rows whose append was
attempted. verify is the outcome of signature verification (not consulted
when the webhook secret is missing, since the handler returns before
calling constructEvent); appendOk tells whether the external sheets append
call succeeds. -/
def stripeWebhookHandler (webhookSecret : Option String) (verify : VerifyOutcome)
    (timestampUtc timestampLocal : String) (appendOk : Bool) :
    HttpResponse × List (List Cell) :=
  if ¬ strTruthy webhookSecret then
    (⟨500, "Webhook secret not configured"⟩, [])
  else
    match verify with
    | VerifyOutcome.err m => (⟨400, "Webhook Error: " ++ m⟩, [])
    | VerifyOutcome.ok event =>
      if event.type = "checkout.session.completed" then
        let row := appendToSheetRow
          (mkFounderRecord event.session timestampUtc timestampLocal)
        if appendOk then (⟨200, receivedTrueBody⟩, [row])
        else (⟨500, "Internal Server Error"⟩, [row])
      else
        (⟨200, receivedTrueBody⟩, [])

/-- One webhook delivery against a ledger state: the handler computes its
rows without reading the ledger, and the attempted rows are appended. -/
def processDelivery (webhookSecret : Option String) (verify : VerifyOutcome)
    (timestampUtc timestampLocal : String) (appendOk : Bool)
    (ledger : List (List Cell)) : HttpResponse × List (List Cell) :=
  let result := stripeWebhookHandler webhookSecret verify timestampUtc
    timestampLocal appendOk
  (result.1, ledger ++ result.2)

/-- The environment configuration restricted to the two startup-relevant
variables. -/
structure Config where
  stripeSecretKey : Option String
  webhookSecret : Option String
deriving DecidableEq, Repr

/-- The eager process-scope configuration gate of src/server.js lines
25-28: the process exits unless STRIPE_SECRET_KEY is set. No other check
in the startup path (the Google credential loading aside, which does not
consult STRIPE_WEBHOOK_SECRET either) keeps the server from listening. -/
def startupAccepts (c : Config) : Bool := strTruthy c.stripeSecretKey

namespace LineItemVariant

/-- One entry of TIER_CONFIG in src/unnamed/part_000 lines 54-75. -/
structure TierEntry where
  tier : String
  contribution : ℤ
  credits : ℤ
deriving DecidableEq, Repr

/-- TIER_CONFIG of src/unnamed/part_000 lines 54-75: Stripe price IDs
mapped to tier and credits. -/
def TIER_CONFIG : List (String × TierEntry) :=
  [ ("price_1SWcyzHeOH2hxFO3a1RWyyv1", ⟨"Bronze", 250, 325⟩),
    ("price_1SWd8MHeOH2hxFO3PycEn43V", ⟨"Silver", 750, 1050⟩),
    ("price_1SWdDaHeOH2hxFO31X6W21AK", ⟨"Gold", 2000, 3000⟩),
    ("price_1SWdGPHeOH2hxFO3ZsLDEvhK", ⟨"Titan", 5000, 8000⟩) ]

/-- The limit option passed to stripe.checkout.sessions.listLineItems in
src/unnamed/part_000 line 101. -/
def listLineItemsLimit : Nat := 10

/-- A fetched line item. The handler only ever reads price.id; the other
fields stand for the rest of the data a real line item carries, so that
ignoring them is provable rather than built in. -/
structure LineItem where
  price_id : String
  quantity : ℤ
  amount_total : ℤ
deriving DecidableEq, Repr

/-- The 8-column row A:H sent by appendToSheet in src/unnamed/part_000
lines 159-170. -/
def sheetRow (timestamp email tier : String) (amountTotal : ℚ) (credits : ℤ)
    (sessionId customerId : String) : List Cell :=
  [ Cell.str timestamp, Cell.str email, Cell.str tier,
    Cell.num amountTotal, Cell.num (credits : ℚ),
    Cell.str sessionId, Cell.str customerId, Cell.str "" ]

/-- handleCheckoutCompleted of src/unnamed/part_000 lines 97-143. The
fetched line items are supplied as input; a thrown Error is an error
result, success carries the row handed to appendToSheet. -/
def handleCheckoutCompleted (session : Session) (lineItems : List LineItem)
    (timestamp : String) : Except String (List Cell) :=
  match lineItems.head? with
  | none => Except.error "No line items found on session"
  | some firstItem =>
    match TIER_CONFIG.lookup firstItem.price_id with
    | none => Except.error ("Unknown price ID: " ++ firstItem.price_id)
    | some config =>
      let email := jsOrStr session.customer_details_email
        (jsOrStr session.customer_email "unknown")
      let amountTotal := sessionAmountUSD session
      Except.ok (sheetRow timestamp email config.tier amountTotal
        config.credits session.id (jsOrStr session.customer ""))

/-- The POST /stripe-webhook route of src/unnamed/part_000 lines 15-50.
Returns the response and the rows whose append was attempted. -/
def webhookRoute (verify : VerifyOutcome) (lineItems : List LineItem)
    (timestamp : String) : HttpResponse × List (List Cell) :=
  match verify with
  | VerifyOutcome.err m => (⟨400, "Webhook Error: " ++ m⟩, [])
  | VerifyOutcome.ok event =>
    if event.type = "checkout.session.completed" then
      match handleCheckoutCompleted event.session lineItems timestamp with
      | Except.ok row => (⟨200, "Received and processed"⟩, [row])
      | Except.error _ => (⟨500, "Server error"⟩, [])
    else
      (⟨200, "Event ignored"⟩, [])

end LineItemVariant

/-- Claim C1: for a session without truthy tier metadata, resolveTier
classifies the USD amount by descending thresholds with the first
(highest) matching threshold winning (5000 Titan, 2000 Gold, 750 Silver,
250 Bronze, below that the sentinel Unknown), and resolveCredits returns
the exact-table credits at the four canonical amounts. -/
theorem resolveTier_thresholds_and_credit_table (s : Session)
    (hmeta : strTruthy s.metadata_tier = false) :
    (5000 ≤ sessionAmountUSD s → resolveTier s = "Titan") ∧
    (2000 ≤ sessionAmountUSD s → sessionAmountUSD s < 5000 →
      resolveTier s = "Gold") ∧
    (750 ≤ sessionAmountUSD s → sessionAmountUSD s < 2000 →
      resolveTier s = "Silver") ∧
    (250 ≤ sessionAmountUSD s → sessionAmountUSD s < 750 →
      resolveTier s = "Bronze") ∧
    (sessionAmountUSD s < 250 → resolveTier s = "Unknown") ∧
    (∀ tier, resolveCredits tier 250 = 325 ∧ resolveCredits tier 750 = 1050 ∧
      resolveCredits tier 2000 = 3000 ∧ resolveCredits tier 5000 = 8000) := by
  have hres : resolveTier s =
      (if sessionAmountUSD s ≥ 5000 then "Titan"
       else if sessionAmountUSD s ≥ 2000 then "Gold"
       else if sessionAmountUSD s ≥ 750 then "Silver"
       else if sessionAmountUSD s ≥ 250 then "Bronze"
       else "Unknown") := by
    simp [resolveTier, hmeta]
  refine ⟨?_, ?_, ?_, ?_, ?_, ?_⟩
  · intro h1
    rw [hres, if_pos h1]
  · intro h1 h2
    rw [hres, if_neg (by simpa using not_le.mpr (by linarith)), if_pos h1]
  · intro h1 h2
    rw [hres, if_neg (by simpa using not_le.mpr (by linarith)),
      if_neg (by simpa using not_le.mpr (by linarith)), if_pos h1]
  · intro h1 h2
    rw [hres, if_neg (by simpa using not_le.mpr (by linarith)),
      if_neg (by simpa using not_le.mpr (by linarith)),
      if_neg (by simpa using not_le.mpr (by linarith)), if_pos h1]
  · intro h1
    rw [hres, if_neg (by simpa using not_le.mpr (by linarith)),
      if_neg (by simpa using not_le.mpr (by linarith)),
      if_neg (by simpa using not_le.mpr (by linarith)),
      if_neg (by simpa using not_le.mpr (by linarith))]
  · intro tier
    refine ⟨?_, ?_, ?_, ?_⟩ <;> norm_num [resolveCredits, jsRound]

/-- Claim C1 witness: a session with amount 25000 cents and no metadata
resolves to Bronze, and the table gives 325 credits at amount 250. -/
theorem resolveTier_thresholds_and_credit_table_witness :
    resolveTier ⟨"cs_a", none, none, some 25000, none, none⟩ = "Bronze" ∧
    resolveCredits "Bronze" 250 = 325 := by
  have h := resolveTier_thresholds_and_credit_table
    ⟨"cs_a", none, none, some 25000, none, none⟩ rfl
  refine ⟨?_, (h.2.2.2.2.2 "Bronze").1⟩
  exact h.2.2.2.1 (by norm_num [sessionAmountUSD, jsNumOr0])
    (by norm_num [sessionAmountUSD, jsNumOr0])

/-- Claim C3: when the rounded amount hits no table entry, resolveCredits
falls back to round of amount times 1.3 (so amount 1000 gives 1300 and
tier Silver by threshold); a zero or negative amount gives the sentinel
Unknown tier and a fallback credit value that is zero or negative. -/
theorem resolveCredits_fallback_multiplier (tier : String) (a : ℚ) (s : Session)
    (hround : jsRound a ≠ 250 ∧ jsRound a ≠ 750 ∧ jsRound a ≠ 2000 ∧
      jsRound a ≠ 5000)
    (hmeta : strTruthy s.metadata_tier = false) :
    resolveCredits tier a = jsRound (a * (13 / 10)) ∧
    resolveCredits tier 1000 = 1300 ∧
    (sessionAmountUSD s = 1000 → resolveTier s = "Silver") ∧
    (sessionAmountUSD s ≤ 0 → resolveTier s = "Unknown") ∧
    (a ≤ 0 → resolveCredits tier a ≤ 0) := by
  have hfall : resolveCredits tier a = jsRound (a * (13 / 10)) := by
    simp only [resolveCredits]
    rw [if_neg hround.1, if_neg hround.2.1, if_neg hround.2.2.1,
      if_neg hround.2.2.2]
  refine ⟨hfall, by norm_num [resolveCredits, jsRound], ?_, ?_, ?_⟩
  · intro h1
    have h := resolveTier_thresholds_and_credit_table s hmeta
    exact h.2.2.1 (by rw [h1]; norm_num) (by rw [h1]; norm_num)
  · intro h1
    have h := resolveTier_thresholds_and_credit_table s hmeta
    exact h.2.2.2.2.1 (by linarith)
  · intro h1
    rw [hfall]
    have hlt : jsRound (a * (13 / 10)) < 1 := by
      unfold jsRound
      rw [Int.floor_lt]
      push_cast
      nlinarith
    omega

/-- Claim C3 witness: amount 1000 rounds to no table entry, yields 1300
credits, and a session with amount -50000 cents resolves to Unknown with
a negative fallback credit value. -/
theorem resolveCredits_fallback_multiplier_witness :
    resolveCredits "Silver" 1000 = 1300 ∧
    resolveTier ⟨"cs_n", none, none, some (-50000), none, none⟩ = "Unknown" ∧
    resolveCredits "Unknown" (-500) ≤ 0 := by
  have h1 := resolveCredits_fallback_multiplier "Silver" 1000
    ⟨"cs_n", none, none, some (-50000), none, none⟩
    (by norm_num [jsRound]) rfl
  have h2 := resolveCredits_fallback_multiplier "Unknown" (-500)
    ⟨"cs_n", none, none, some (-50000), none, none⟩
    (by norm_num [jsRound]) rfl
  refine ⟨h1.2.1, ?_, h2.2.2.2.2 (by norm_num)⟩
  exact h1.2.2.2.1 (by norm_num [sessionAmountUSD, jsNumOr0])

/-- Claim C4: explicit (truthy) tier metadata is authoritative for
resolveTier and bypasses amount-based inference; resolveCredits ignores
the tier argument entirely, and at amount 10 every tier gets the fallback
credits 13. -/
theorem resolveTier_metadata_authoritative (s : Session) (t : String)
    (hmeta : s.metadata_tier = some t) (ht : t ≠ "") :
    resolveTier s = t ∧
    (∀ t1 t2 a, resolveCredits t1 a = resolveCredits t2 a) ∧
    (∀ tierName, resolveCredits tierName 10 = 13) := by
  refine ⟨?_, fun t1 t2 a => rfl, ?_⟩
  · simp [resolveTier, strTruthy, hmeta, ht]
  · intro tierName
    norm_num [resolveCredits, jsRound]

/-- Claim C4 witness: metadata tier Gold with amount 1000 cents resolves
to Gold while the credits for amount 10 are 13. -/
theorem resolveTier_metadata_authoritative_witness :
    resolveTier ⟨"cs_b", none, none, some 1000, some "Gold", none⟩ = "Gold" ∧
    resolveCredits "Gold" 10 = 13 := by
  have h := resolveTier_metadata_authoritative
    ⟨"cs_b", none, none, some 1000, some "Gold", none⟩ "Gold" rfl (by decide)
  exact ⟨h.1, h.2.2 "Gold"⟩

/-- Claim C2: when signature verification fails (invalid or missing
signature), both the server.js handler (given a configured secret) and
the line-item variant route answer 400 with body Webhook Error followed
by the verification error message, and attempt no ledger append. -/
theorem webhook_invalid_signature_rejected (secret : Option String)
    (m : String) (tsU tsL : String) (appendOk : Bool)
    (hsecret : strTruthy secret = true) :
    stripeWebhookHandler secret (VerifyOutcome.err m) tsU tsL appendOk =
      (⟨400, "Webhook Error: " ++ m⟩, []) ∧
    (∀ items ts, LineItemVariant.webhookRoute (VerifyOutcome.err m) items ts =
      (⟨400, "Webhook Error: " ++ m⟩, [])) := by
  refine ⟨?_, fun items ts => rfl⟩
  simp [stripeWebhookHandler, hsecret]

/-- Claim C2 witness: a concrete failed verification yields the 400
response with the error message and no appended row. -/
theorem webhook_invalid_signature_rejected_witness :
    stripeWebhookHandler (some "whsec_123")
        (VerifyOutcome.err "No signatures found") "t1" "t2" true =
      (⟨400, "Webhook Error: No signatures found"⟩, []) := by
  exact (webhook_invalid_signature_rejected (some "whsec_123")
    "No signatures found" "t1" "t2" true (by decide)).1

/-- Claim C5 counterexample: the line-item variant route cited by the
claim answers a validly signed event of an unrecognized type with the
plain-text body Event ignored, which is not the JSON body with received
set to true. -/
theorem ignored_event_body_differs_in_variant :
    LineItemVariant.webhookRoute
        (VerifyOutcome.ok ⟨"invoice.paid",
          ⟨"cs_c", none, none, some 1000, none, none⟩⟩) [] "t" =
      (⟨200, "Event ignored"⟩, []) ∧
    "Event ignored" ≠ receivedTrueBody := by
  exact ⟨rfl, by decide⟩

/-- Claim C5 amended: every validly signed event of a type other than
checkout.session.completed is acknowledged with 200 and no ledger append
is attempted; the server.js handler answers with the JSON body with
received set to true, while the line-item variant answers with the
plain-text body Event ignored. -/
theorem ignored_event_acknowledged (secret : Option String)
    (ev : StripeEvent) (tsU tsL : String) (appendOk : Bool)
    (items : List LineItemVariant.LineItem) (ts : String)
    (hsecret : strTruthy secret = true)
    (htype : ev.type ≠ "checkout.session.completed") :
    stripeWebhookHandler secret (VerifyOutcome.ok ev) tsU tsL appendOk =
      (⟨200, receivedTrueBody⟩, []) ∧
    LineItemVariant.webhookRoute (VerifyOutcome.ok ev) items ts =
      (⟨200, "Event ignored"⟩, []) := by
  constructor
  · simp [stripeWebhookHandler, hsecret, htype]
  · simp [LineItemVariant.webhookRoute, htype]

/-- Claim C5 witness: a concrete event of type invoice.paid gets 200
with the received-true JSON body from the server.js handler and no
appended row. -/
theorem ignored_event_acknowledged_witness :
    stripeWebhookHandler (some "whsec_123")
        (VerifyOutcome.ok ⟨"invoice.paid",
          ⟨"cs_c", none, none, some 1000, none, none⟩⟩) "t1" "t2" true =
      (⟨200, receivedTrueBody⟩, []) := by
  exact (ignored_event_acknowledged (some "whsec_123")
    ⟨"invoice.paid", ⟨"cs_c", none, none, some 1000, none, none⟩⟩
    "t1" "t2" true [] "t" (by decide) (by decide)).1

/-- Claim C6: a checkout-completed event with an empty fetched line-item
list, or whose first line item has a price identifier outside
TIER_CONFIG, makes handleCheckoutCompleted throw, the route answer 500,
and no ledger append is attempted. -/
theorem malformed_event_500 (ev : StripeEvent)
    (items : List LineItemVariant.LineItem) (ts : String)
    (htype : ev.type = "checkout.session.completed")
    (hbad : items = [] ∨ ∃ hd, items.head? = some hd ∧
      LineItemVariant.TIER_CONFIG.lookup hd.price_id = none) :
    (∃ msg, LineItemVariant.handleCheckoutCompleted ev.session items ts =
      Except.error msg) ∧
    LineItemVariant.webhookRoute (VerifyOutcome.ok ev) items ts =
      (⟨500, "Server error"⟩, []) := by
  have herr : ∃ msg,
      LineItemVariant.handleCheckoutCompleted ev.session items ts =
        Except.error msg := by
    rcases hbad with h | ⟨hd, hhd, hlook⟩
    · subst h
      exact ⟨"No line items found on session", rfl⟩
    · refine ⟨"Unknown price ID: " ++ hd.price_id, ?_⟩
      unfold LineItemVariant.handleCheckoutCompleted
      rw [hhd]
      simp [hlook]
  obtain ⟨msg, hmsg⟩ := herr
  refine ⟨⟨msg, hmsg⟩, ?_⟩
  simp [LineItemVariant.webhookRoute, htype, hmsg]

/-- Claim C6 witness: a concrete checkout-completed event with zero line
items gets 500 and no appended row; one whose first item carries an
unknown price identifier does too. -/
theorem malformed_event_500_witness :
    LineItemVariant.webhookRoute
        (VerifyOutcome.ok ⟨"checkout.session.completed",
          ⟨"cs_d", none, none, some 1000, none, none⟩⟩) [] "t" =
      (⟨500, "Server error"⟩, []) ∧
    LineItemVariant.webhookRoute
        (VerifyOutcome.ok ⟨"checkout.session.completed",
          ⟨"cs_d", none, none, some 1000, none, none⟩⟩)
        [⟨"price_unrecognized", 1, 1000⟩] "t" =
      (⟨500, "Server error"⟩, []) := by
  constructor
  · exact (malformed_event_500
      ⟨"checkout.session.completed", ⟨"cs_d", none, none, some 1000, none, none⟩⟩
      [] "t" rfl (Or.inl rfl)).2
  · exact (malformed_event_500
      ⟨"checkout.session.completed", ⟨"cs_d", none, none, some 1000, none, none⟩⟩
      [⟨"price_unrecognized", 1, 1000⟩] "t" rfl
      (Or.inr ⟨⟨"price_unrecognized", 1, 1000⟩, rfl, by decide⟩)).2

/-- Claim C7: a qualifying checkout-completed delivery attempts exactly
one ledger append; a delivery extends any prior ledger by rows computed
without reading it, so delivering the identical event twice appends two
rows (no deduplication by session identifier); the line-item variant
also appends exactly one row per processed event. -/
theorem qualifying_event_single_append_no_dedup (secret : Option String)
    (ev : StripeEvent) (tsU tsL : String) (ledger : List (List Cell))
    (hsecret : strTruthy secret = true)
    (htype : ev.type = "checkout.session.completed") :
    (stripeWebhookHandler secret (VerifyOutcome.ok ev) tsU tsL true).2 =
      [appendToSheetRow (mkFounderRecord ev.session tsU tsL)] ∧
    (processDelivery secret (VerifyOutcome.ok ev) tsU tsL true ledger).2 =
      ledger ++ [appendToSheetRow (mkFounderRecord ev.session tsU tsL)] ∧
    (processDelivery secret (VerifyOutcome.ok ev) tsU tsL true
        ((processDelivery secret (VerifyOutcome.ok ev) tsU tsL true
          ledger).2)).2.length = ledger.length + 2 ∧
    (∀ items li cfg ts, items.head? = some li →
      LineItemVariant.TIER_CONFIG.lookup li.price_id = some cfg →
      (LineItemVariant.webhookRoute (VerifyOutcome.ok ev) items ts).2.length
        = 1) := by
  have hrows : (stripeWebhookHandler secret (VerifyOutcome.ok ev) tsU tsL
      true).2 = [appendToSheetRow (mkFounderRecord ev.session tsU tsL)] := by
    simp [stripeWebhookHandler, hsecret, htype]
  refine ⟨hrows, ?_, ?_, ?_⟩
  · simp [processDelivery, hrows]
  · simp [processDelivery, hrows]
  · intro items li cfg ts hhd hlook
    simp [LineItemVariant.webhookRoute,
      LineItemVariant.handleCheckoutCompleted, htype, hhd, hlook]

/-- Claim C7 witness: delivering a concrete qualifying event twice onto
an empty ledger leaves two appended rows. -/
theorem qualifying_event_single_append_no_dedup_witness :
    (processDelivery (some "whsec_123")
        (VerifyOutcome.ok ⟨"checkout.session.completed",
          ⟨"cs_e", none, none, some 25000, none, none⟩⟩) "t1" "t2" true
        ((processDelivery (some "whsec_123")
          (VerifyOutcome.ok ⟨"checkout.session.completed",
            ⟨"cs_e", none, none, some 25000, none, none⟩⟩) "t1" "t2" true
          []).2)).2.length = 2 := by
  exact (qualifying_event_single_append_no_dedup (some "whsec_123")
    ⟨"checkout.session.completed", ⟨"cs_e", none, none, some 25000, none, none⟩⟩
    "t1" "t2" [] (by decide) rfl).2.2.1

/-- Claim C8: appendToSheet serializes every founder record into exactly
the fixed 11-column order Timestamp-UTC, Timestamp-Local, Email, Tier,
AmountPaidUSD, Credits, SessionID, CustomerID, Notes, Status,
AgreementVersion, with the Status column always the empty string, and
the record built at write time carries empty notes. -/
theorem ledger_row_schema (f : FounderRecord) (s : Session)
    (tsU tsL : String) :
    appendToSheetRow f =
      [ Cell.str f.timestampUtc, Cell.str f.timestampLocal,
        Cell.str f.email, Cell.str f.tier, Cell.num f.amountTotal,
        Cell.num (f.credits : ℚ), Cell.str f.sessionId,
        Cell.str f.customerId, Cell.str f.notes, Cell.str "",
        Cell.str f.agreementVersion ] ∧
    (appendToSheetRow f).length = 11 ∧
    (mkFounderRecord s tsU tsL).notes = "" := by
  have hs : ∀ x : String, jsStrOrEmpty x = x := by
    intro x
    unfold jsStrOrEmpty
    split <;> simp_all
  have hq : ∀ q : ℚ, jsQOr0 q = q := by
    intro q
    unfold jsQOr0
    split <;> simp_all
  have hz : ∀ z : ℤ, jsZOr0 z = z := by
    intro z
    unfold jsZOr0
    split <;> simp_all
  refine ⟨?_, by simp [appendToSheetRow], rfl⟩
  simp [appendToSheetRow, hs, hq, hz]

/-- Claim C9 counterexample: with the Stripe API key provisioned but the
webhook signing secret never provisioned, the eager process-scope
startup gate of server.js accepts and the server proceeds to listen, so
the missing signing secret is not caught before traffic is accepted. -/
theorem startup_ignores_webhook_secret :
    startupAccepts ⟨some "sk_live_abc", none⟩ = true := by decide

/-- Claim C9 amended: the eager process-scope refuse-to-serve check
covers the Stripe API secret key only; the webhook signing secret is
checked on each request inside the handler, which answers 500 before any
verification or processing when the secret is unprovisioned, so no
request is ever verified or processed with a missing signing secret. -/
theorem webhook_secret_checked_per_request (c : Config)
    (verify : VerifyOutcome) (tsU tsL : String) (appendOk : Bool)
    (hmiss : strTruthy c.webhookSecret = false) :
    stripeWebhookHandler c.webhookSecret verify tsU tsL appendOk =
      (⟨500, "Webhook secret not configured"⟩, []) ∧
    (∀ c2 : Config, strTruthy c2.stripeSecretKey = false →
      startupAccepts c2 = false) := by
  refine ⟨?_, fun c2 h => h⟩
  simp [stripeWebhookHandler, hmiss]

/-- Claim C9 witness: with a missing webhook secret a concrete request is
answered 500 without verification or append. -/
theorem webhook_secret_checked_per_request_witness :
    stripeWebhookHandler (Config.mk (some "sk_live_abc") none).webhookSecret
        (VerifyOutcome.err "sig") "t1" "t2" true =
      (⟨500, "Webhook secret not configured"⟩, []) := by
  exact (webhook_secret_checked_per_request ⟨some "sk_live_abc", none⟩
    (VerifyOutcome.err "sig") "t1" "t2" true rfl).1

/-- Claim C10: the line-item fetch passes limit 10, and the outcome of
the variant handler depends only on the first fetched line item; in
particular it depends only on that first item through its price
identifier, every later item and every other field being ignored. -/
theorem first_line_item_decides (s : Session)
    (items items2 : List LineItemVariant.LineItem) (ts : String)
    (hhead : items.head? = items2.head?) :
    LineItemVariant.listLineItemsLimit = 10 ∧
    LineItemVariant.handleCheckoutCompleted s items ts =
      LineItemVariant.handleCheckoutCompleted s items2 ts ∧
    (∀ (pid : String) (q1 a1 q2 a2 : ℤ)
        (rest rest2 : List LineItemVariant.LineItem),
      LineItemVariant.handleCheckoutCompleted s (⟨pid, q1, a1⟩ :: rest) ts =
        LineItemVariant.handleCheckoutCompleted s (⟨pid, q2, a2⟩ :: rest2) ts) := by
  refine ⟨rfl, ?_, ?_⟩
  · unfold LineItemVariant.handleCheckoutCompleted
    rw [hhead]
  · intro pid q1 a1 q2 a2 rest rest2
    rfl

/-- Claim C10 witness: a session with two line items of different price
identifiers is handled exactly like one carrying only the first item. -/
theorem first_line_item_decides_witness :
    LineItemVariant.handleCheckoutCompleted
        ⟨"cs_f", none, none, some 25000, none, none⟩
        [⟨"price_1SWcyzHeOH2hxFO3a1RWyyv1", 1, 25000⟩,
         ⟨"price_1SWdGPHeOH2hxFO3ZsLDEvhK", 2, 500000⟩] "t" =
      LineItemVariant.handleCheckoutCompleted
        ⟨"cs_f", none, none, some 25000, none, none⟩
        [⟨"price_1SWcyzHeOH2hxFO3a1RWyyv1", 1, 25000⟩] "t" := by
  exact (first_line_item_decides
    ⟨"cs_f", none, none, some 25000, none, none⟩
    [⟨"price_1SWcyzHeOH2hxFO3a1RWyyv1", 1, 25000⟩,
     ⟨"price_1SWdGPHeOH2hxFO3ZsLDEvhK", 2, 500000⟩]
    [⟨"price_1SWcyzHeOH2hxFO3a1RWyyv1", 1, 25000⟩] "t" rfl).2.1
